import Mathlib

/-!
Verification of the `cams` edge-function worker (`src/index.js`).

The worker is shallowly embedded: JavaScript numbers that matter to the
claims are modelled as `Option ℚ` where `none` plays the role of `NaN`
(for the aggregated index) respectively `null` (for per-layer readings),
exactly tracking the JS coercions the source relies on; fallible code
lives in `Except String`; the twelve upstream fetch outcomes are a
function from the pollutant-type string to an `Upstream` outcome.
Geometry (`offset`, the bounding box) is embedded over `ℝ`, since the
source formula uses `Math.cos`/`Math.PI`.
-/

set_option autoImplicit false

namespace Cams

/-! ### Static catalogs (src/index.js lines 5-18) -/

/-- The `atmosphereTypeToLayer` object of the source, as an association
list in insertion order (JS object string keys enumerate in insertion
order, which is what `Object.keys` returns in `getAll`). -/
def atmosphereLayerTable : List (String × String) :=
  [("Pollen-Birch", "composition_europe_pol_birch_forecast_surface"),
   ("CO", "composition_europe_co_forecast_surface"),
   ("Pollen-Grass", "composition_europe_pol_grass_forecast_surface"),
   ("NH3", "composition_europe_nh3_forecast_surface"),
   ("NMVOC", "composition_europe_nmvoc_forecast_surface"),
   ("NO", "composition_europe_no_forecast_surface"),
   ("NO2", "composition_europe_no2_forecast_surface"),
   ("O3", "composition_europe_o3_forecast_surface"),
   ("PANs", "composition_europe_pans_forecast_surface"),
   ("PM10", "composition_europe_pm10_forecast_surface"),
   ("PM2.5", "composition_europe_pm2p5_forecast_surface"),
   ("SO2", "composition_europe_so2_forecast_surface")]

/-- JS property access `atmosphereTypeToLayer[type]`: `none` models the
`undefined` that a non-key access yields. -/
def atmosphereTypeToLayer (t : String) : Option String :=
  atmosphereLayerTable.lookup t

/-- `Object.keys(atmosphereTypeToLayer)` (src/index.js line 137). -/
def atmosphereKeys : List String :=
  atmosphereLayerTable.map Prod.fst

/-! ### JS numeric semantics used by the aggregator -/

/-- JS binary `+` as used in `arr.reduce((p, c) => p + c, 0)`
(src/index.js line 171): the accumulator is a JS number (`none` = NaN),
each array element is `number | null`; `null` coerces to `+0` under
`ToNumber`, and NaN propagates. -/
def addVal (p : Option ℚ) (c : Option ℚ) : Option ℚ :=
  match p, c with
  | none, _ => none
  | some p, none => some p
  | some p, some c => some (p + c)

/-- The `average` arrow function (src/index.js line 171):
`arr.reduce((p, c) => p + c, 0) / arr.length`.  An empty array would give
JS `0 / 0 = NaN`, modelled by the `none` branch; the source only ever
calls it with four entries. -/
def average (arr : List (Option ℚ)) : Option ℚ :=
  match arr.foldl addVal (some 0) with
  | none => none
  | some s => if arr.length = 0 then none else some (s / (arr.length : ℚ))

/-! ### Qualitative banding (src/index.js lines 180-200) -/

/-- The five qualitative band names assigned to `qualitativeName`. -/
inductive Band where
  | very_low
  | low
  | medium
  | high
  | very_high
deriving DecidableEq, Repr

/-- JS `>=` on a possibly-NaN left operand: every comparison with NaN is
false. -/
def jsGeB (a : Option ℚ) (b : ℚ) : Bool :=
  match a with
  | none => false
  | some q => decide (b ≤ q)

/-- JS `<` on a possibly-NaN left operand: every comparison with NaN is
false. -/
def jsLtB (a : Option ℚ) (b : ℚ) : Bool :=
  match a with
  | none => false
  | some q => decide (q < b)

/-- The sequential-overwrite banding of src/index.js lines 180-200: five
independent `if` statements, each assigning over the previous value of
the `qualitativeName` variable, which starts out undefined (`none`). -/
def qualitativeName (aqi : Option ℚ) : Option Band :=
  let q0 : Option Band := none
  let q1 := bif jsGeB aqi 100 then some Band.very_high else q0
  let q2 := bif jsLtB aqi 100 then some Band.high else q1
  let q3 := bif jsLtB aqi 75 then some Band.medium else q2
  let q4 := bif jsLtB aqi 50 then some Band.low else q3
  bif jsLtB aqi 25 then some Band.very_low else q4

/-- Modelled from the spec's words (§4.5): ordinary mutually exclusive
range checks — value≥100→very_high, 75≤value<100→high, 50≤value<75→medium,
25≤value<50→low, value<25→very_low, NaN→unset. -/
def bandSpec (aqi : Option ℚ) : Option Band :=
  match aqi with
  | none => none
  | some v =>
    if 100 ≤ v then some Band.very_high
    else if 75 ≤ v then some Band.high
    else if 50 ≤ v then some Band.medium
    else if 25 ≤ v then some Band.low
    else some Band.very_low

/-! ### Per-layer fetch (src/index.js lines 71-133) -/

/-- Outcome of one upstream layer fetch, as observed by `get`:
`fail` is a non-2xx response (`!response.ok`); `okMalformed` is a 2xx
response whose body fails `response.json()` or whose
`Probes[0].Value` access throws; `okValue v u` is a 2xx response that
parses, carrying `Probes[0].Value.Data` and `Probes[0].Value.Unit`. -/
inductive Upstream where
  | fail
  | okMalformed
  | okValue (value : Option ℚ) (unit : Option String)
deriving DecidableEq, Repr

/-- One `PollutantReading`: `{ type, value, unit }` as returned by `get`. -/
structure Reading where
  type : String
  value : Option ℚ
  unit : Option String
deriving DecidableEq, Repr

/-- The `value` field `get` produces for a given upstream outcome. -/
def readingValue : Upstream → Option ℚ
  | Upstream.okValue v _ => v
  | _ => none

/-- The `unit` field `get` produces for a given upstream outcome. -/
def readingUnit : Upstream → Option String
  | Upstream.okValue _ u => u
  | _ => none

/-- The reading `get` returns for type `t` when the fetch does not throw
(i.e. on the 2xx paths; for `fail` this value is never reached). -/
def readingPure (up : String → Upstream) (t : String) : Reading :=
  ⟨t, readingValue (up t), readingUnit (up t)⟩

/-- The tail of `get` (src/index.js lines 112-132): throw
`Error('Could not fetch data')` on a non-ok response, otherwise recover
from a malformed body with `value: null, unit: null`. -/
def getReading (up : String → Upstream) (t : String) : Except String Reading :=
  match up t with
  | Upstream.fail => Except.error "Could not fetch data"
  | Upstream.okMalformed => Except.ok ⟨t, none, none⟩
  | Upstream.okValue v u => Except.ok ⟨t, v, u⟩

/-- `Promise.all` over the per-type `get` calls, in `Object.keys` order:
resolves to the list of readings, or rejects with the error of a failed
call (src/index.js lines 135-141). -/
def getReadings (up : String → Upstream) : List String → Except String (List Reading)
  | [] => Except.ok []
  | t :: ts =>
    match getReading up t with
    | Except.error e => Except.error e
    | Except.ok r =>
      match getReadings up ts with
      | Except.error e => Except.error e
      | Except.ok rs => Except.ok (r :: rs)

/-- `getAll` (src/index.js lines 135-141). -/
def getAll (up : String → Upstream) : Except String (List Reading) :=
  getReadings up atmosphereKeys

/-! ### Request handling (src/index.js lines 143-215) -/

/-- The parts of the incoming request `handle` reads: the `lat` and `lng`
query parameters (`none` when absent) and the `origin` header. -/
structure Request where
  latParam : Option String
  lngParam : Option String
  origin : Option String

/-- `parseFloat(url.searchParams.get(k))`: a missing parameter is `null`,
and `parseFloat(null)` is NaN (`none`); a present parameter `s` parses to
`pf s`, where `pf` models the `parseFloat` library function (`pf s = none`
iff `parseFloat(s)` is NaN, i.e. `s` is non-numeric). -/
def jsParseFloat (pf : String → Option ℚ) : Option String → Option ℚ
  | none => none
  | some s => pf s

/-- The message of the `ReferenceError` thrown for a NaN latitude
(src/index.js line 149). -/
def latMsg : String :=
  "You did not provide a latitude value in the \"lat\" search parameter."

/-- The message of the `ReferenceError` thrown for a NaN longitude
(src/index.js line 155; the source really says `"lat"` in this message
too). -/
def lngMsg : String :=
  "You did not provide a longitude value in the \"lat\" search parameter."

/-- `responseData[t].value`: the `value` of the first reading whose
`type` is `t` (the reduce on src/index.js lines 159-169 builds an object
keyed by `type`; key order and overwrites keep the first/only entry per
type since the twelve types are distinct). -/
def getVal (rs : List Reading) (t : String) : Option ℚ :=
  match rs.find? (fun r => r.type == t) with
  | some r => r.value
  | none => none

/-- The JSON payload of a successful response: the twelve readings plus
the `aqi` entry. -/
structure Payload where
  readings : List Reading
  aqiValue : Option ℚ
  aqiBand : Option Band
deriving DecidableEq, Repr

/-- `handle` (src/index.js lines 143-215), up to building the `Response`
object: throws (as `Except.error`) for a NaN `lat` or `lng` and when
`getAll` rejects; otherwise assembles the payload and its `aqi` entry. -/
def handle (pf : String → Option ℚ) (req : Request) (up : String → Upstream) :
    Except String Payload :=
  match jsParseFloat pf req.latParam with
  | none => Except.error latMsg
  | some _ =>
    match jsParseFloat pf req.lngParam with
    | none => Except.error lngMsg
    | some _ =>
      match getAll up with
      | Except.error e => Except.error e
      | Except.ok rs =>
        let aqi := average
          [getVal rs "NO2", getVal rs "PM10", getVal rs "O3", getVal rs "PM2.5"]
        Except.ok ⟨rs, aqi, qualitativeName aqi⟩

/-! ### The fetch event listener (src/index.js lines 217-251) -/

/-- A response body: plain error text, or the JSON payload. -/
inductive Body where
  | text (msg : String)
  | json (payload : Payload)
deriving DecidableEq, Repr

/-- The observable HTTP response: status, body and headers. -/
structure HandlerResponse where
  status : Nat
  body : Body
  headers : List (String × String)
deriving DecidableEq, Repr

/-- `nextHour` (src/index.js lines 223-227): `hh < 24 ? hh + 1 : 0`. -/
def nextHour (hh : Nat) : Nat :=
  if hh < 24 then hh + 1 else 0

/-- The `Expires` computation of the listener, with the current time
modelled as minutes since the epoch: `d.setUTCHours(nextHour(hh))`,
minutes and seconds zeroed; `Date` normalisation turns hour 24 into hour
0 of the next day, i.e. plain arithmetic on minutes. -/
def expiresMinutes (now : Nat) : Nat :=
  (now / 1440) * 1440 + nextHour ((now / 60) % 24) * 60

/-- The headers of a successful response after the listener has run:
`content-type` set in `handle`, then `Expires`,
`Access-Control-Allow-Origin` and `Access-Control-Request-Method` set by
the listener (src/index.js lines 209-245).  The `Expires` value stands in
for `d.toUTCString()` of the computed time. -/
def stdHeaders (now : Nat) : List (String × String) :=
  [("content-type", "application/json"),
   ("Expires", toString (expiresMinutes now)),
   ("Access-Control-Allow-Origin", "*"),
   ("Access-Control-Request-Method", "GET")]

/-- The fetch event listener (src/index.js lines 229-251): on success,
the 200 response from `handle` with the cache/CORS headers added; on any
thrown error, `errorResponse(e.message)` — status 400, the message as
plain text, and no headers at all. -/
def handleEvent (pf : String → Option ℚ) (now : Nat) (req : Request)
    (up : String → Upstream) : HandlerResponse :=
  match handle pf req up with
  | Except.error msg => ⟨400, Body.text msg, []⟩
  | Except.ok p => ⟨200, Body.json p, stdHeaders now⟩

/-! ### The layer query builder (src/index.js lines 71-101) -/

/-- A built query URL: base plus search parameters in `set` order. -/
structure QueryURL where
  base : String
  params : List (String × String)
deriving DecidableEq, Repr

/-- `URLSearchParams.set` stringification of a possibly-undefined value:
JS coerces `undefined` to the string `"undefined"`. -/
def jsStr : Option String → String
  | none => "undefined"
  | some s => s

/-- The query-building part of `get` (src/index.js lines 71-101), with
the stringified bounding box passed in (`bbox.join(',')`).  The ambient
`Except` records that this region of the source could throw but never
does: property access on a missing key yields `undefined`, and
`searchParams.set` coerces it to `"undefined"`. -/
def buildQueryE (bboxStr : String) (t : String) : Except String QueryURL :=
  Except.ok ⟨"https://apps.ecmwf.int/wms/",
    [("service", "wms"),
     ("version", "1.3.0"),
     ("request", "GetFeatureInfo"),
     ("token", "public"),
     ("layers", jsStr (atmosphereTypeToLayer t)),
     ("query_layers", jsStr (atmosphereTypeToLayer t)),
     ("info_format", "application/json"),
     ("elevation", "0"),
     ("crs", "EPSG:4326"),
     ("bbox", bboxStr),
     ("width", "200"),
     ("height", "200"),
     ("x", "100"),
     ("y", "100")]⟩

/-- `Except.isOk` spelled out for the builder's result type. -/
def exceptIsOk {ε α : Type} : Except ε α → Bool
  | Except.ok _ => true
  | Except.error _ => false

/-- `true` iff the first character list is a prefix of the second. -/
def isPrefixChars : List Char → List Char → Bool
  | [], _ => true
  | _ :: _, [] => false
  | a :: as, b :: bs => a == b && isPrefixChars as bs

/-- `true` iff `sub` occurs as a contiguous run inside `s`. -/
def infixChars (sub : List Char) : List Char → Bool
  | [] => isPrefixChars sub []
  | c :: rest => isPrefixChars sub (c :: rest) || infixChars sub rest

/-- `true` iff `sub` occurs as a substring of `s`. -/
def containsStr (s sub : String) : Bool :=
  infixChars sub.data s.data

/-! ### Geometry (src/index.js lines 52-65 and 72-76) -/

/-- `offset([long, lat], dn, de)` (src/index.js lines 52-65): the
spherical-Earth offset with R = 6378137, `dLat = dn / R`,
`dLon = de / (R * cos(π * lat / 180))` — the cosine uses the original
latitude — both converted to degrees and added; returns `[lonO, latO]`. -/
noncomputable def offset (long lat dn de : ℝ) : ℝ × ℝ :=
  let R : ℝ := 6378137
  let dLat := dn / R
  let dLon := de / (R * Real.cos (Real.pi * lat / 180))
  let latO := lat + dLat * 180 / Real.pi
  let lonO := long + dLon * 180 / Real.pi
  (lonO, latO)

/-- The bounding box built by `get` (src/index.js lines 72-76): NW corner
from `offset` with `(-radius, -radius)`, SE corner with
`(radius, radius)`, radius 5000, assembled as `[latNW, longNW, latSE,
longSE]` (this list is joined with commas into the `bbox` parameter). -/
noncomputable def bboxOf (long lat : ℝ) : List ℝ :=
  let radius : ℝ := 5000
  let nw := offset long lat (-radius) (-radius)
  let se := offset long lat radius radius
  [nw.2, nw.1, se.2, se.1]

/-- Modelled from the spec's words (§4.1): the offset formula written
directly — `long + (de / (R·cos(π·lat/180)))·180/π` and
`lat + (dn/R)·180/π` with R = 6378137. -/
noncomputable def offsetSpec (long lat dn de : ℝ) : ℝ × ℝ :=
  (long + de / (6378137 * Real.cos (Real.pi * lat / 180)) * 180 / Real.pi,
   lat + dn / 6378137 * 180 / Real.pi)

/-! ### Response-projection helpers -/

/-- The `aqi.value` of a response: `some` of it for a JSON body, `none`
for an error body. -/
def responseAqiOf (r : HandlerResponse) : Option (Option ℚ) :=
  match r.body with
  | Body.json p => some p.aqiValue
  | Body.text _ => none

/-- The `aqi.qualitativeName` of a response: `some` of it for a JSON
body, `none` for an error body. -/
def responseBandOf (r : HandlerResponse) : Option (Option Band) :=
  match r.body with
  | Body.json p => some p.aqiBand
  | Body.text _ => none

/-- The readings list of a response: `some` of it for a JSON body,
`none` for an error body. -/
def responseReadingsOf (r : HandlerResponse) : Option (List Reading) :=
  match r.body with
  | Body.json p => some p.readings
  | Body.text _ => none

/-! ### Helper lemmas -/

lemma addVal_some (p : ℚ) (c : Option ℚ) : addVal (some p) c = some (p + c.getD 0) := by
  cases c <;> simp [addVal]

lemma average_four (v1 v2 v3 v4 : Option ℚ) :
    average [v1, v2, v3, v4] =
      some ((v1.getD 0 + v2.getD 0 + v3.getD 0 + v4.getD 0) / 4) := by
  simp [average, List.foldl, addVal_some]

lemma bandSpec_some_ne_none (q : ℚ) : bandSpec (some q) ≠ none := by
  simp only [bandSpec]
  split_ifs <;> simp

lemma qualitativeName_eq_bandSpec (a : Option ℚ) : qualitativeName a = bandSpec a := by
  cases a with
  | none => rfl
  | some v =>
    rcases le_or_lt 100 v with h1 | h1
    · have n1 : ¬v < 100 := not_lt.mpr h1
      have n2 : ¬v < 75 := by linarith
      have n3 : ¬v < 50 := by linarith
      have n4 : ¬v < 25 := by linarith
      simp [qualitativeName, bandSpec, jsGeB, jsLtB, h1, n1, n2, n3, n4]
    · rcases le_or_lt 75 v with h2 | h2
      · have n0 : ¬(100 : ℚ) ≤ v := not_le.mpr h1
        have n2 : ¬v < 75 := not_lt.mpr h2
        have n3 : ¬v < 50 := by linarith
        have n4 : ¬v < 25 := by linarith
        simp [qualitativeName, bandSpec, jsGeB, jsLtB, h1, h2, n0, n2, n3, n4]
      · rcases le_or_lt 50 v with h3 | h3
        · have n0 : ¬(100 : ℚ) ≤ v := by linarith
          have n0' : ¬(75 : ℚ) ≤ v := not_le.mpr h2
          have n3 : ¬v < 50 := not_lt.mpr h3
          have n4 : ¬v < 25 := by linarith
          simp [qualitativeName, bandSpec, jsGeB, jsLtB, h1, h2, h3, n0, n0', n3, n4]
        · rcases le_or_lt 25 v with h4 | h4
          · have n0 : ¬(100 : ℚ) ≤ v := by linarith
            have n0' : ¬(75 : ℚ) ≤ v := by linarith
            have n0'' : ¬(50 : ℚ) ≤ v := not_le.mpr h3
            have n4 : ¬v < 25 := not_lt.mpr h4
            simp [qualitativeName, bandSpec, jsGeB, jsLtB, h1, h2, h3, h4, n0, n0', n0'', n4]
          · have n0 : ¬(100 : ℚ) ≤ v := by linarith
            have n0' : ¬(75 : ℚ) ≤ v := by linarith
            have n0'' : ¬(50 : ℚ) ≤ v := by linarith
            have n0''' : ¬(25 : ℚ) ≤ v := not_le.mpr h4
            simp [qualitativeName, bandSpec, jsGeB, jsLtB, h4, n0, n0', n0'', n0''']

lemma getReadings_ok (up : String → Upstream) (l : List String)
    (h : ∀ t ∈ l, up t ≠ Upstream.fail) :
    getReadings up l = Except.ok (l.map (readingPure up)) := by
  induction l with
  | nil => rfl
  | cons a l ih =>
    have ha : up a ≠ Upstream.fail := h a (List.mem_cons_self a l)
    have ih' := ih (fun t ht => h t (List.mem_cons_of_mem a ht))
    cases hup : up a with
    | fail => exact absurd hup ha
    | okMalformed =>
      simp [getReadings, getReading, hup, ih', readingPure, readingValue, readingUnit]
    | okValue v u =>
      simp [getReadings, getReading, hup, ih', readingPure, readingValue, readingUnit]

lemma getReadings_fail (up : String → Upstream) (l : List String)
    (h : ∃ t ∈ l, up t = Upstream.fail) :
    getReadings up l = Except.error "Could not fetch data" := by
  induction l with
  | nil => simp at h
  | cons a l ih =>
    by_cases ha : up a = Upstream.fail
    · simp [getReadings, getReading, ha]
    · obtain ⟨t, ht, hf⟩ := h
      rcases List.mem_cons.mp ht with rfl | ht'
      · exact absurd hf ha
      · have hrec := ih ⟨t, ht', hf⟩
        cases hup : up a with
        | fail => exact absurd hup ha
        | okMalformed => simp [getReadings, getReading, hup, hrec]
        | okValue v u => simp [getReadings, getReading, hup, hrec]

lemma getVal_cons (r : Reading) (rs : List Reading) (t : String) :
    getVal (r :: rs) t = bif r.type == t then r.value else getVal rs t := by
  cases h : (r.type == t) <;> simp [getVal, List.find?, h]

lemma getVal_map (up : String → Upstream) (l : List String) (t : String) (h : t ∈ l) :
    getVal (l.map (readingPure up)) t = readingValue (up t) := by
  induction l with
  | nil => simp at h
  | cons a l ih =>
    rw [List.map_cons, getVal_cons]
    by_cases hat : a = t
    · subst hat
      simp [readingPure]
    · have hb : ((readingPure up a).type == t) = false := by
        simp [readingPure, hat]
      rw [hb, cond_false]
      apply ih
      rcases List.mem_cons.mp h with rfl | h'
      · exact absurd rfl hat
      · exact h'

lemma handle_ok (pf : String → Option ℚ) (req : Request) (up : String → Upstream)
    (hlat : jsParseFloat pf req.latParam ≠ none)
    (hlng : jsParseFloat pf req.lngParam ≠ none)
    (hup : ∀ t ∈ atmosphereKeys, up t ≠ Upstream.fail) :
    handle pf req up = Except.ok
      ⟨atmosphereKeys.map (readingPure up),
       average [readingValue (up "NO2"), readingValue (up "PM10"),
                readingValue (up "O3"), readingValue (up "PM2.5")],
       qualitativeName (average [readingValue (up "NO2"), readingValue (up "PM10"),
                readingValue (up "O3"), readingValue (up "PM2.5")])⟩ := by
  have hg : getAll up = Except.ok (atmosphereKeys.map (readingPure up)) :=
    getReadings_ok up atmosphereKeys hup
  cases ha : jsParseFloat pf req.latParam with
  | none => exact absurd ha hlat
  | some a =>
    cases hb : jsParseFloat pf req.lngParam with
    | none => exact absurd hb hlng
    | some b =>
      simp only [handle, ha, hb, hg]
      rw [getVal_map up atmosphereKeys "NO2" (by decide),
          getVal_map up atmosphereKeys "PM10" (by decide),
          getVal_map up atmosphereKeys "O3" (by decide),
          getVal_map up atmosphereKeys "PM2.5" (by decide)]

/-! ### Concrete scenarios used by counterexamples and witnesses -/

/-- A `parseFloat` model that parses every string to 0. -/
def pfZero : String → Option ℚ := fun _ => some 0

/-- A request with numeric `lat` and `lng` parameters. -/
def reqOk : Request := ⟨some "59.3", some "18.1", none⟩

/-- Upstream where the four designated pollutants carry the readings
NO2=40, PM10=20, O3=60, PM2.5=10 and every other layer parses to 0. -/
def upC1 : String → Upstream := fun t =>
  if t = "NO2" then Upstream.okValue (some 40) (some "ug m**-3")
  else if t = "PM10" then Upstream.okValue (some 20) (some "ug m**-3")
  else if t = "O3" then Upstream.okValue (some 60) (some "ug m**-3")
  else if t = "PM2.5" then Upstream.okValue (some 10) (some "ug m**-3")
  else Upstream.okValue (some 0) (some "ug m**-3")

/-- Like `upC1` but the NO2 layer is malformed, so its reading is null. -/
def upC2 : String → Upstream := fun t =>
  if t = "NO2" then Upstream.okMalformed else upC1 t

/-! ### Claims -/

/-- Claim C1, counterexample: for the readings NO2=40, PM10=20, O3=60,
PM2.5=10 the aggregate is 32.5 as claimed, but the sequential banding
keeps overwriting down to `low` (32.5 < 50), not `medium`. -/
theorem designated_readings_band_counterexample :
    average [some 40, some 20, some 60, some 10] = some (65 / 2) ∧
    qualitativeName (average [some 40, some 20, some 60, some 10]) = some Band.low ∧
    some Band.low ≠ some Band.medium := by
  have hv : average [some (40 : ℚ), some 20, some 60, some 10] = some (65 / 2) := by
    rw [average_four]
    norm_num
  refine ⟨hv, ?_, by simp⟩
  rw [hv, qualitativeName_eq_bandSpec]
  norm_num [bandSpec]

/-- Claim C1, amended: for any request with numeric coordinates and no
failing layer, where the designated readings are NO2=40, PM10=20, O3=60,
PM2.5=10, the response is a 200 whose `aqi.value` is 32.5 and whose
`qualitativeName` is `low`. -/
theorem designated_readings_aqi (pf : String → Option ℚ) (now : Nat) (req : Request)
    (up : String → Upstream) (u1 u2 u3 u4 : Option String)
    (hlat : jsParseFloat pf req.latParam ≠ none)
    (hlng : jsParseFloat pf req.lngParam ≠ none)
    (hup : ∀ t ∈ atmosphereKeys, up t ≠ Upstream.fail)
    (h1 : up "NO2" = Upstream.okValue (some 40) u1)
    (h2 : up "PM10" = Upstream.okValue (some 20) u2)
    (h3 : up "O3" = Upstream.okValue (some 60) u3)
    (h4 : up "PM2.5" = Upstream.okValue (some 10) u4) :
    (handleEvent pf now req up).status = 200 ∧
    responseAqiOf (handleEvent pf now req up) = some (some (65 / 2)) ∧
    responseBandOf (handleEvent pf now req up) = some (some Band.low) := by
  have hh := handle_ok pf req up hlat hlng hup
  have hv : average [readingValue (up "NO2"), readingValue (up "PM10"),
      readingValue (up "O3"), readingValue (up "PM2.5")] = some (65 / 2) := by
    rw [h1, h2, h3, h4]
    simp only [readingValue]
    rw [average_four]
    norm_num
  have hband : qualitativeName (some ((65 : ℚ) / 2)) = some Band.low := by
    rw [qualitativeName_eq_bandSpec]
    norm_num [bandSpec]
  refine ⟨?_, ?_, ?_⟩ <;>
    simp [handleEvent, hh, responseAqiOf, responseBandOf, hv, hband]

/-- Witness for `designated_readings_aqi` at a concrete scenario. -/
theorem designated_readings_aqi_witness :
    (handleEvent pfZero 0 reqOk upC1).status = 200 ∧
    responseAqiOf (handleEvent pfZero 0 reqOk upC1) = some (some (65 / 2)) ∧
    responseBandOf (handleEvent pfZero 0 reqOk upC1) = some (some Band.low) :=
  designated_readings_aqi pfZero 0 reqOk upC1
    (some "ug m**-3") (some "ug m**-3") (some "ug m**-3") (some "ug m**-3")
    (by simp [jsParseFloat, pfZero, reqOk]) (by simp [jsParseFloat, pfZero, reqOk])
    (by decide) rfl rfl rfl rfl

/-- Claim C2, counterexample: with the NO2 layer null (malformed body)
and PM10=20, O3=60, PM2.5=10, the aggregated `aqi.value` is 22.5 — not
NaN — and `qualitativeName` is set to `very_low`, not left unset: JS
`+` coerces `null` to 0. -/
theorem null_reading_not_nan_counterexample :
    responseAqiOf (handleEvent pfZero 0 reqOk upC2) = some (some (45 / 2)) ∧
    responseBandOf (handleEvent pfZero 0 reqOk upC2) = some (some Band.very_low) := by
  have hh := handle_ok pfZero reqOk upC2
    (by simp [jsParseFloat, pfZero, reqOk]) (by simp [jsParseFloat, pfZero, reqOk])
    (by decide)
  have e1 : readingValue (upC2 "NO2") = none := rfl
  have e2 : readingValue (upC2 "PM10") = some 20 := rfl
  have e3 : readingValue (upC2 "O3") = some 60 := rfl
  have e4 : readingValue (upC2 "PM2.5") = some 10 := rfl
  have hv : average [readingValue (upC2 "NO2"), readingValue (upC2 "PM10"),
      readingValue (upC2 "O3"), readingValue (upC2 "PM2.5")] = some (45 / 2) := by
    rw [e1, e2, e3, e4, average_four]
    norm_num
  have hband : qualitativeName (some ((45 : ℚ) / 2)) = some Band.very_low := by
    rw [qualitativeName_eq_bandSpec]
    norm_num [bandSpec]
  constructor
  · simp [handleEvent, hh, responseAqiOf, hv]
  · simp [handleEvent, hh, responseBandOf, hv, hband]

/-- Claim C2, amended: a null among the four designated readings coerces
to 0 under the aggregator's JS addition, so `aqi.value` is the sum of
the non-null values divided by 4 — always a number, never NaN — and
`qualitativeName` is always assigned some band. -/
theorem null_coerces_to_zero (v1 v2 v3 v4 : Option ℚ) :
    average [v1, v2, v3, v4] =
      some ((v1.getD 0 + v2.getD 0 + v3.getD 0 + v4.getD 0) / 4) ∧
    qualitativeName (average [v1, v2, v3, v4]) ≠ none := by
  refine ⟨average_four v1 v2 v3 v4, ?_⟩
  rw [average_four, qualitativeName_eq_bandSpec]
  exact bandSpec_some_ne_none _

/-- Claim C3: if exactly one of the four designated readings is null and
the other three are numeric, the aggregator treats the null as 0 and
`aqi.value` is the sum of the three numeric values divided by 4, a
finite number — whichever of the four positions holds the null. -/
theorem single_null_mean (a b c : ℚ) :
    average [none, some a, some b, some c] = some ((a + b + c) / 4) ∧
    average [some a, none, some b, some c] = some ((a + b + c) / 4) ∧
    average [some a, some b, none, some c] = some ((a + b + c) / 4) ∧
    average [some a, some b, some c, none] = some ((a + b + c) / 4) := by
  refine ⟨?_, ?_, ?_, ?_⟩ <;> simp [average_four]

/-- Claim C4: the sequential overwrite structure of the banding checks
(src/index.js lines 180-200) is equivalent to the ordinary mutually
exclusive range checks of the spec — value≥100→very_high,
75≤value<100→high, 50≤value<75→medium, 25≤value<50→low,
value<25→very_low — and for NaN no condition is true, so
`qualitativeName` remains unset. -/
theorem band_overwrite_equiv (a : Option ℚ) : qualitativeName a = bandSpec a :=
  qualitativeName_eq_bandSpec a

/-- Upstream where the SO2 fetch returns a non-2xx status and every
other layer succeeds with a value. -/
def upFail : String → Upstream := fun t =>
  if t = "SO2" then Upstream.fail else Upstream.okValue (some 1) (some "ug m**-3")

/-- A `parseFloat` model that parses only the string `"19"`. -/
def pfOne : String → Option ℚ := fun s => if s = "19" then some 19 else none

/-- Claim C5: when the `lat`/`lng` parameters parse and any of the twelve
upstream calls returns a non-2xx status, the overall response is exactly
status 400 with plain-text body `Could not fetch data` (and, the headers
being empty and the body being that fixed string, no per-layer value
from the other eleven calls appears in the response). -/
theorem upstream_fail_aborts (pf : String → Option ℚ) (now : Nat) (req : Request)
    (up : String → Upstream)
    (hlat : jsParseFloat pf req.latParam ≠ none)
    (hlng : jsParseFloat pf req.lngParam ≠ none)
    (hfail : ∃ t ∈ atmosphereKeys, up t = Upstream.fail) :
    handleEvent pf now req up = ⟨400, Body.text "Could not fetch data", []⟩ := by
  have hg : getAll up = Except.error "Could not fetch data" :=
    getReadings_fail up atmosphereKeys hfail
  cases ha : jsParseFloat pf req.latParam with
  | none => exact absurd ha hlat
  | some a =>
    cases hb : jsParseFloat pf req.lngParam with
    | none => exact absurd hb hlng
    | some b => simp [handleEvent, handle, ha, hb, hg]

/-- Witness for `upstream_fail_aborts` at a concrete scenario. -/
theorem upstream_fail_aborts_witness :
    handleEvent pfZero 7 reqOk upFail = ⟨400, Body.text "Could not fetch data", []⟩ :=
  upstream_fail_aborts pfZero 7 reqOk upFail
    (by simp [jsParseFloat, pfZero, reqOk]) (by simp [jsParseFloat, pfZero, reqOk])
    ⟨"SO2", by decide, rfl⟩

/-- Claim C6: when no layer's fetch fails outright and layer `t`'s 2xx
body is malformed, the request still succeeds (status 200), the payload
holds exactly the readings `readingPure up` of all twelve layers in
catalog order, layer `t`'s reading is `⟨t, null, null⟩` and appears in
the payload, while every other layer's reading is untouched (it is
`readingPure up t'`, computed from that layer's own outcome alone). -/
theorem malformed_layer_isolated (pf : String → Option ℚ) (now : Nat) (req : Request)
    (up : String → Upstream) (t : String)
    (hlat : jsParseFloat pf req.latParam ≠ none)
    (hlng : jsParseFloat pf req.lngParam ≠ none)
    (hup : ∀ t' ∈ atmosphereKeys, up t' ≠ Upstream.fail)
    (hmem : t ∈ atmosphereKeys)
    (ht : up t = Upstream.okMalformed) :
    (handleEvent pf now req up).status = 200 ∧
    responseReadingsOf (handleEvent pf now req up) =
      some (atmosphereKeys.map (readingPure up)) ∧
    readingPure up t = ⟨t, none, none⟩ ∧
    (⟨t, none, none⟩ : Reading) ∈ atmosphereKeys.map (readingPure up) := by
  have hh := handle_ok pf req up hlat hlng hup
  have hr : readingPure up t = ⟨t, none, none⟩ := by
    simp [readingPure, readingValue, readingUnit, ht]
  refine ⟨?_, ?_, hr, ?_⟩
  · simp [handleEvent, hh]
  · simp [handleEvent, hh, responseReadingsOf]
  · rw [← hr]
    exact List.mem_map_of_mem (readingPure up) hmem

/-- Witness for `malformed_layer_isolated` at a concrete scenario. -/
theorem malformed_layer_isolated_witness :
    (handleEvent pfZero 0 reqOk upC2).status = 200 ∧
    responseReadingsOf (handleEvent pfZero 0 reqOk upC2) =
      some (atmosphereKeys.map (readingPure upC2)) ∧
    readingPure upC2 "NO2" = ⟨"NO2", none, none⟩ ∧
    (⟨"NO2", none, none⟩ : Reading) ∈ atmosphereKeys.map (readingPure upC2) :=
  malformed_layer_isolated pfZero 0 reqOk upC2 "NO2"
    (by simp [jsParseFloat, pfZero, reqOk]) (by simp [jsParseFloat, pfZero, reqOk])
    (by decide) (by decide) rfl

/-- Claim C7: a missing or non-numeric `lat` query parameter (NaN after
`parseFloat`) yields a 400 response whose plain-text message mentions
"latitude"; with `lat` valid, a missing or non-numeric `lng` yields a
400 whose message mentions "longitude". -/
theorem missing_coord_rejected (pf : String → Option ℚ) (now : Nat) (req : Request)
    (up : String → Upstream) :
    (jsParseFloat pf req.latParam = none →
      handleEvent pf now req up = ⟨400, Body.text latMsg, []⟩ ∧
      containsStr latMsg "latitude" = true) ∧
    (jsParseFloat pf req.latParam ≠ none → jsParseFloat pf req.lngParam = none →
      handleEvent pf now req up = ⟨400, Body.text lngMsg, []⟩ ∧
      containsStr lngMsg "longitude" = true) := by
  constructor
  · intro h
    exact ⟨by simp [handleEvent, handle, h], by decide⟩
  · intro h1 h2
    cases ha : jsParseFloat pf req.latParam with
    | none => exact absurd ha h1
    | some a =>
      exact ⟨by simp [handleEvent, handle, ha, h2], by decide⟩

/-- Witness for `missing_coord_rejected`: one scenario with `lat`
missing, one with `lat` valid and `lng` missing. -/
theorem missing_coord_rejected_witness :
    (handleEvent (fun _ => none) 0 ⟨none, some "x", none⟩ (fun _ => Upstream.fail) =
        ⟨400, Body.text latMsg, []⟩ ∧
      containsStr latMsg "latitude" = true) ∧
    (handleEvent pfOne 0 ⟨some "19", none, none⟩ (fun _ => Upstream.fail) =
        ⟨400, Body.text lngMsg, []⟩ ∧
      containsStr lngMsg "longitude" = true) :=
  ⟨(missing_coord_rejected (fun _ => none) 0 ⟨none, some "x", none⟩ (fun _ => Upstream.fail)).1
      rfl,
   (missing_coord_rejected pfOne 0 ⟨some "19", none, none⟩ (fun _ => Upstream.fail)).2
      (by simp [jsParseFloat, pfOne]) rfl⟩

/-- Claim C8: `offset` computes exactly the spec's spherical-Earth
formula — `dLat = dn/R`, `dLon = de/(R·cos(π·lat/180))` with
R = 6378137 and the original latitude in the cosine — converted to
degrees and added to `lat` and `long`; and the bounding box is
`[latNW, longNW, latSE, longSE]` with the NW point from offsets
(-5000, -5000) and the SE point from (+5000, +5000). -/
theorem bbox_formula (long lat : ℝ) :
    (∀ dn de : ℝ, offset long lat dn de = offsetSpec long lat dn de) ∧
    bboxOf long lat =
      [(offsetSpec long lat (-5000) (-5000)).2, (offsetSpec long lat (-5000) (-5000)).1,
       (offsetSpec long lat 5000 5000).2, (offsetSpec long lat 5000 5000).1] :=
  ⟨fun _ _ => rfl, rfl⟩

/-- Claim C9, counterexample: the response to a request with a missing
`lat` parameter is produced by `errorResponse`, which sets status 400
and no headers at all — in particular none of `content-type`,
`Access-Control-Allow-Origin`, `Access-Control-Request-Method`,
`Expires`. -/
theorem error_response_headers_counterexample :
    (handleEvent pfZero 0 ⟨none, none, none⟩ upC1).status = 400 ∧
    (handleEvent pfZero 0 ⟨none, none, none⟩ upC1).headers = [] :=
  ⟨rfl, rfl⟩

/-- Claim C9, amended: only successful responses carry the four headers
`content-type: application/json`, `Expires`,
`Access-Control-Allow-Origin: *`, `Access-Control-Request-Method: GET`,
with `Expires` at the top of the next UTC hour; error responses carry no
headers at all. -/
theorem response_headers (pf : String → Option ℚ) (now : Nat) (req : Request)
    (up : String → Upstream) :
    (exceptIsOk (handle pf req up) = true →
      (handleEvent pf now req up).status = 200 ∧
      (handleEvent pf now req up).headers = stdHeaders now) ∧
    (exceptIsOk (handle pf req up) = false →
      (handleEvent pf now req up).status = 400 ∧
      (handleEvent pf now req up).headers = []) ∧
    expiresMinutes now = (now / 60 + 1) * 60 := by
  refine ⟨?_, ?_, ?_⟩
  · intro h
    cases hh : handle pf req up with
    | error e =>
      rw [hh] at h
      simp [exceptIsOk] at h
    | ok p => simp [handleEvent, hh]
  · intro h
    cases hh : handle pf req up with
    | error e => simp [handleEvent, hh]
    | ok p =>
      rw [hh] at h
      simp [exceptIsOk] at h
  · have h24 : (now / 60) % 24 < 24 := Nat.mod_lt _ (by norm_num)
    unfold expiresMinutes nextHour
    rw [if_pos h24]
    omega

/-- Witness for `response_headers`: a successful scenario and a failing
one, at minute 59 of the first UTC hour. -/
theorem response_headers_witness :
    ((handleEvent pfZero 59 reqOk upC1).status = 200 ∧
      (handleEvent pfZero 59 reqOk upC1).headers = stdHeaders 59) ∧
    ((handleEvent pfZero 59 ⟨none, none, none⟩ upC1).status = 400 ∧
      (handleEvent pfZero 59 ⟨none, none, none⟩ upC1).headers = []) ∧
    expiresMinutes 59 = (59 / 60 + 1) * 60 :=
  ⟨(response_headers pfZero 59 reqOk upC1).1 rfl,
   (response_headers pfZero 59 ⟨none, none, none⟩ upC1).2.1 rfl,
   (response_headers pfZero 59 reqOk upC1).2.2⟩

/-- Claim C10, counterexample: `"CO2"` is not a key of the layer
catalog, yet the query builder does not fail — it still produces a
query. -/
theorem unknown_type_issues_query_counterexample :
    atmosphereTypeToLayer "CO2" = none ∧
    exceptIsOk (buildQueryE "0,0,0,0" "CO2") = true :=
  ⟨rfl, rfl⟩

/-- Claim C10, amended: for a type that is not a catalog key the builder
does not fail and signals nothing; the catalog access yields `undefined`
and `searchParams.set` coerces it, so the issued query carries the
literal string `"undefined"` as its `layers` and `query_layers`
parameters. -/
theorem unknown_type_layers_undefined (bs t : String)
    (h : atmosphereTypeToLayer t = none) :
    buildQueryE bs t = Except.ok ⟨"https://apps.ecmwf.int/wms/",
      [("service", "wms"), ("version", "1.3.0"), ("request", "GetFeatureInfo"),
       ("token", "public"), ("layers", "undefined"), ("query_layers", "undefined"),
       ("info_format", "application/json"), ("elevation", "0"), ("crs", "EPSG:4326"),
       ("bbox", bs), ("width", "200"), ("height", "200"), ("x", "100"), ("y", "100")]⟩ := by
  simp [buildQueryE, h, jsStr]

/-- Witness for `unknown_type_layers_undefined` at the non-key `"CO2"`. -/
theorem unknown_type_layers_undefined_witness :
    buildQueryE "0,0,0,0" "CO2" = Except.ok ⟨"https://apps.ecmwf.int/wms/",
      [("service", "wms"), ("version", "1.3.0"), ("request", "GetFeatureInfo"),
       ("token", "public"), ("layers", "undefined"), ("query_layers", "undefined"),
       ("info_format", "application/json"), ("elevation", "0"), ("crs", "EPSG:4326"),
       ("bbox", "0,0,0,0"), ("width", "200"), ("height", "200"), ("x", "100"), ("y", "100")]⟩ :=
  unknown_type_layers_undefined "0,0,0,0" "CO2" rfl

end Cams
